import Mathlib

/-!
Shallow embedding of the keykey firmware core (a three-button programmable USB
HID keypad) used to check the natural-language specification against the code.

Sources embedded here:
  * keykey/src/keyboard.rs — the HID class device (`Keykey`), the key matrix
    (`Matrix`), the two report descriptors;
  * keykey/src/flash.rs   — the wear-leveled flash configuration store
    (`ConfigWriter`);
  * host/src/packets.rs   — the shared wire types (`Request`, `ReportType`,
    `VendorCommand`, `AppCommand`).

The crate `keylib`'s module `key_code` (the `KeyCode` enum, the valid-usage
zone constants and the `KbHidReport` type) is declared in host/src/lib.rs but
its source file is not part of the sources; those pieces are modelled from the
specification and are marked as such in their doc comments.

Machine integers are embedded as `Nat`; all the byte values handled below stay
far below any overflow boundary of the original `u8`/`u16`/`usize` types
except where an explicit wrap (`as u8`) appears in the source, which is
embedded as `% 256`.  Flash and USB hardware are modelled fault-free: the
claims under scrutiny concern the logic around the hardware, and every
hardware-error branch of the source is an early `return Err(..)` that the
fault-free model simply never takes.
-/

/-! ### Constants (keykey/src/main.rs, host/src/lib.rs) -/

/-- `NUM_BTS` from keykey/src/main.rs: the keypad has three buttons. -/
def NUM_BTS : Nat := 3

/-- `CTRL_INTERFACE` from host/src/lib.rs; `Keykey::new` asserts that the
control interface got this interface number. -/
def CTRL_INTERFACE : Nat := 1

/-- The keyboard interface number; `Keykey::new` allocates it first, and the
source comment states it is always 0. -/
def KEY_INTERFACE : Nat := 0

/-! ### Valid usage-code zones

Modelled from the spec: the constants `ZONE1_FIRST`, `ZONE1_LAST`,
`ZONE2_FIRST`, `ZONE2_LAST` live in keylib's `key_code::valid_ranges`, whose
source file is missing; the spec only says a usage code is valid iff it lies
in one of two contiguous zones Z1 = [Z1_lo, Z1_hi] and Z2 = [Z2_lo, Z2_hi]
(with a non-empty gap between them, since it speaks of the byte `Z1_hi + 1` as
lying between the zones).  The development is therefore parametrised by the
four bounds. -/

/-- The four zone bounds `ZONE1_FIRST ≤ ZONE1_LAST < ZONE2_FIRST ≤ ZONE2_LAST`
from keylib's `key_code::valid_ranges` (file missing; modelled from the
spec). -/
structure Zones where
  z1First : Nat
  z1Last : Nat
  z2First : Nat
  z2Last : Nat
deriving DecidableEq

/-- Modelled from the spec: the two zones are contiguous byte ranges with a
non-empty gap between them (the spec names the gap byte `Z1_hi + 1`), and all
bounds are bytes. -/
def Zones.WellFormed (Z : Zones) : Prop :=
  Z.z1First ≤ Z.z1Last ∧ Z.z1Last + 1 < Z.z2First ∧ Z.z2First ≤ Z.z2Last ∧ Z.z2Last ≤ 255

instance (Z : Zones) : Decidable Z.WellFormed := by
  unfold Zones.WellFormed; infer_instance

/-- The per-byte validity test of `Matrix::from_bytes` (keykey/src/keyboard.rs,
line 353): a code is invalid iff it is below zone 1, in the gap between the
zones, or above zone 2. -/
def invalidCode (Z : Zones) (code : Nat) : Bool :=
  decide (code < Z.z1First) || (decide (Z.z1Last < code) && decide (code < Z.z2First))
    || decide (Z.z2Last < code)

/-- Modelled from the spec: `KeyCode::try_from` (keylib's key_code.rs is
missing).  The spec defines a usage code as valid iff it lies in Z1 ∪ Z2, and
`Matrix::from_bytes` transmutes exactly the bytes passing `invalidCode` into
`KeyCode`s, so decoding succeeds exactly on the valid bytes.  A `KeyCode` is
embedded as its byte value. -/
def KeyCode.tryFrom (Z : Zones) (v : Nat) : Option Nat :=
  if invalidCode Z v then none else some v

/-! ### The key matrix (keykey/src/keyboard.rs, `Matrix`) -/

/-- `Matrix` (keykey/src/keyboard.rs): the current layout, `NUM_BTS = 3` usage
codes, one per button slot.  Named `KeyMatrix` here because Mathlib already
owns the name `Matrix`. -/
structure KeyMatrix where
  k0 : Nat
  k1 : Nat
  k2 : Nat
deriving DecidableEq

/-- `Matrix::new`: the factory layout `[KeyCode::A, KeyCode::B, KeyCode::C]`
= `[0x04, 0x05, 0x06]` (usage codes fixed by the spec, scenario S1). -/
def KeyMatrix.new : KeyMatrix := ⟨0x04, 0x05, 0x06⟩

/-- `Matrix::to_bytes`: the layout reinterpreted as `[u8; NUM_BTS]`
(`KeyCode` is `repr(u8)`). -/
def KeyMatrix.toBytes (m : KeyMatrix) : List Nat := [m.k0, m.k1, m.k2]

/-- `Matrix::from_bytes`: reject the array if any byte is invalid, otherwise
reinterpret it as a layout.  The input is a `[u8; NUM_BTS]`, embedded as a
list; the catch-all arm is unreachable for length-3 inputs. -/
def KeyMatrix.fromBytes (Z : Zones) (bytes : List Nat) : Option KeyMatrix :=
  if bytes.any (invalidCode Z) then
    none
  else
    match bytes with
    | [b0, b1, b2] => some ⟨b0, b1, b2⟩
    | _ => none

/-! ### Debounced button states and HID reports -/

/-- Modelled from the spec: the external debouncer contract (spec §6) —
`BtnState ∈ {UnPressed, ChangedToPressed, Pressed/Repeat, ChangedToUnpressed}`.
The debouncer crate is an external collaborator whose source is not part of
the repository. -/
inductive BtnState where
  | unPressed
  | changedToPressed
  | repeat
  | changedToUnpressed
deriving DecidableEq

/-- A debouncer snapshot: the answers `get_state(index)` would give for each
button index, `none` embedding the `Err(_)` case of the
`Result<BtnState, _>`. -/
def DebouncerSnapshot : Type := Nat → Option BtnState

/-- Modelled from the spec: `KbHidReport::new` (keylib's key_code.rs is
missing) — the 8-byte boot-keyboard report, all zero: modifier byte, reserved
byte, six key bytes. -/
def KbHidReport.new : List Nat := List.replicate 8 0

/-- Writes a key code into the first free (zero) byte of a key-byte list,
leaving the list unchanged when no byte is free. -/
def setFirstZero : List Nat → Nat → List Nat
  | [], _ => []
  | x :: xs, kc => if x = 0 then kc :: xs else x :: setFirstZero xs kc

/-- Modelled from the spec: `KbHidReport::pressed` (keylib's key_code.rs is
missing) — per spec §4.3 a pressed slot's usage code is set into the report's
pressed-keys bytes (positions 2..7), in slot order, the modifier byte staying
zero. -/
def KbHidReport.pressed (r : List Nat) (kc : Nat) : List Nat :=
  r.take 2 ++ setFirstZero (r.drop 2) kc

/-- The loop body of `Matrix::update` (keykey/src/keyboard.rs, lines 331-338):
for slot `p.1` carrying code `p.2`, query the debouncer; on a successful
answer different from `UnPressed`, press the slot's code into the report. -/
def updateStep (db : DebouncerSnapshot) (report : List Nat) (p : Nat × Nat) : List Nat :=
  match db p.1 with
  | some v => if v ≠ BtnState.unPressed then KbHidReport.pressed report p.2 else report
  | none => report

/-- `Matrix::update` (keykey/src/keyboard.rs, lines 328-340): fold the loop
body over the enumerated layout, starting from a fresh report. -/
def KeyMatrix.update (m : KeyMatrix) (db : DebouncerSnapshot) : List Nat :=
  [(0, m.k0), (1, m.k1), (2, m.k2)].foldl (updateStep db) KbHidReport.new

/-! ### Wire types (host/src/packets.rs) -/

/-- `Request` (host/src/packets.rs): the HID class-specific request codes. -/
inductive Request where
  | getReport
  | getIdle
  | getProtocol
  | setReport
  | setIdle
  | setProtocol
deriving DecidableEq

/-- `Request::new` (host/src/packets.rs, lines 22-35). -/
def Request.new (u : Nat) : Option Request :=
  if u = 0x01 then some .getReport
  else if u = 0x02 then some .getIdle
  else if u = 0x03 then some .getProtocol
  else if u = 0x09 then some .setReport
  else if u = 0x0a then some .setIdle
  else if u = 0x0b then some .setProtocol
  else none

/-- `ReportType` (host/src/packets.rs, lines 37-43). -/
inductive ReportType where
  | input
  | output
  | feature
  | reserved (v : Nat)
deriving DecidableEq

/-- `From<u8> for ReportType` (host/src/packets.rs, lines 45-54). -/
def ReportType.fromByte (v : Nat) : ReportType :=
  if v = 1 then .input
  else if v = 2 then .output
  else if v = 3 then .feature
  else .reserved v

/-- `VendorCommand` (host/src/packets.rs, lines 56-65): `Set1 = 1`, `Set2 = 2`,
`Set3 = 3`, `Save = 4`, `GetOSFeature = b'F' = 70`. -/
inductive VendorCommand where
  | set1
  | set2
  | set3
  | save
  | getOSFeature
deriving DecidableEq

/-- `VendorCommand::try_from` (derived `TryFromPrimitive` on the `repr(u8)`
enum): succeeds exactly on the five discriminant values. -/
def VendorCommand.tryFrom (u : Nat) : Option VendorCommand :=
  if u = 1 then some .set1
  else if u = 2 then some .set2
  else if u = 3 then some .set3
  else if u = 4 then some .save
  else if u = 70 then some .getOSFeature
  else none

/-- `AppCommand` (host/src/packets.rs, lines 67-73), a `KeyCode` embedded as
its byte value. -/
inductive AppCommand where
  | set1 (k : Nat)
  | set2 (k : Nat)
  | set3 (k : Nat)
  | save
deriving DecidableEq

/-- `AppCommand::from_req_value` (host/src/packets.rs, lines 75-85): the
`GetOSFeature` catch-all yields `None`. -/
def AppCommand.fromReqValue (req : VendorCommand) (value : Nat) : Option AppCommand :=
  match req with
  | .set1 => some (.set1 value)
  | .set2 => some (.set2 value)
  | .set3 => some (.set3 value)
  | .save => some .save
  | .getOSFeature => none

/-! ### The flash configuration store (keykey/src/flash.rs)

The STM32F103 flash peripheral is modelled fault-free: unlocking succeeds, the
status register reports no write-protect or programming faults, an erase
really leaves the page all-`0xFF`, and a programmed half-word reads back as
written.  Every hardware-error branch of the source is an early `return Err`,
so the fault-free functional semantics below is the source with those branches
never taken; the `WrongRange` and `FlashNotErased` branches, which are pure
logic, are kept exactly. -/

/-- `FLASH_START` (keykey/src/flash.rs, line 27). -/
def FLASH_START : Nat := 0x08000000

/-- `PAGE_SIZE` (keykey/src/flash.rs, line 28). -/
def PAGE_SIZE : Nat := 1024

/-- `FLASH_SIZE_KB` (keykey/src/flash.rs, line 29). -/
def FLASH_SIZE_KB : Nat := 64

/-- `FLASH_END = FLASH_START + FLASH_SIZE_KB * PAGE_SIZE` (flash.rs, line 30). -/
def FLASH_END : Nat := FLASH_START + FLASH_SIZE_KB * PAGE_SIZE

/-- `CONFIG_ADD`: the base of the last flash page (flash.rs, line 33). -/
def CONFIG_ADD : Nat := FLASH_START + (FLASH_SIZE_KB - 1) * PAGE_SIZE

/-- `MAGIC` (flash.rs, line 35). -/
def MAGIC : Nat := 0x55

/-- `CONFIG_SIZE = ((NUM_BTS + 1) + 1) & !1`, the `!1` being the 32-bit
`usize` complement of 1 (flash.rs, line 37).  Evaluates to 4. -/
def CONFIG_SIZE : Nat := Nat.land ((NUM_BTS + 1) + 1) 0xFFFFFFFE

/-- `CONFIGS_IN_PAGE = PAGE_SIZE / CONFIG_SIZE` (flash.rs, line 39).
Evaluates to 256. -/
def CONFIGS_IN_PAGE : Nat := PAGE_SIZE / CONFIG_SIZE

/-- The flash contents: a byte for every address. -/
def Mem : Type := Nat → Nat

/-- `FlashError` (flash.rs, lines 45-55). -/
inductive FlashError where
  | unlockError
  | verificationError
  | eraseError
  | wrongRange
  | programmingError
  | flashNotErased
deriving DecidableEq

/-- `ConfigWriter` (flash.rs, lines 57-61) together with the flash contents it
owns: the zero-sized `Parts` token becomes the `mem` field. -/
structure ConfigWriter where
  mem : Mem
  lastValidIndex : Nat

/-- `ConfigWriter::valid_range` (flash.rs, lines 271-273):
`start >= CONFIG_ADD && start + length < FLASH_END` — note the strict `<`. -/
def ConfigWriter.valid_range (start length : Nat) : Bool :=
  decide (CONFIG_ADD ≤ start) && decide (start + length < FLASH_END)

/-- Byte-wise store of `data` into `mem` starting at `start`. -/
def writeBytes : Mem → Nat → List Nat → Mem
  | mem, _, [] => mem
  | mem, start, b :: bs => writeBytes (fun a => if a = start then b else mem a) (start + 1) bs

/-- `ConfigWriter::write` (flash.rs, lines 226-269), fault-free: the range and
parity check happens before any flash register is touched; afterwards the
half-word programming loop (here: a byte-wise store, which on even lengths is
the same function) always verifies. -/
def ConfigWriter.write (mem : Mem) (start : Nat) (data : List Nat) :
    Except FlashError Mem :=
  if !ConfigWriter.valid_range start data.length || Nat.land data.length 1 != 0 then
    .error .wrongRange
  else
    .ok (writeBytes mem start data)

/-- `ConfigWriter::erase_page` (flash.rs, lines 146-183), fault-free: the
config page becomes all-`0xFF`. -/
def erasePage (mem : Mem) : Mem :=
  fun a => if CONFIG_ADD ≤ a ∧ a < CONFIG_ADD + PAGE_SIZE then 0xFF else mem a

/-- `ConfigWriter::read` (flash.rs, lines 217-224). -/
def ConfigWriter.read (mem : Mem) (start length : Nat) : Except FlashError (List Nat) :=
  if ConfigWriter.valid_range start length then
    .ok ((List.range length).map fun i => mem (start + i))
  else
    .error .wrongRange

/-- `ConfigWriter::matrix_to_config` (flash.rs, lines 140-144): a zeroed
`[u8; CONFIG_SIZE]` buffer receives the magic byte and the `NUM_BTS` layout
bytes. -/
def matrixToConfig (m : KeyMatrix) : List Nat :=
  (MAGIC :: m.toBytes) ++ List.replicate (CONFIG_SIZE - (NUM_BTS + 1)) 0

/-- `ConfigWriter::write_config` (flash.rs, lines 117-138).  On every error
path of the source no field of the writer has been mutated yet (the
`FlashNotErased` and `WrongRange` returns precede any store, and in the
wrap-around branch the fault-free erase and the slot-0 write cannot fail), so
the caller's writer is unchanged exactly when an error comes back. -/
def ConfigWriter.write_config (w : ConfigWriter) (m : KeyMatrix) :
    Except FlashError ConfigWriter :=
  let config := matrixToConfig m
  if w.lastValidIndex + 1 < CONFIGS_IN_PAGE then
    let nextAddr := CONFIG_ADD + (w.lastValidIndex + 1) * CONFIG_SIZE
    if w.mem nextAddr ≠ 0xFF then
      .error .flashNotErased
    else
      match ConfigWriter.write w.mem nextAddr config with
      | .error e => .error e
      | .ok mem2 => .ok ⟨mem2, w.lastValidIndex + 1⟩
  else
    match ConfigWriter.write (erasePage w.mem) CONFIG_ADD config with
    | .error e => .error e
    | .ok mem2 => .ok ⟨mem2, 0⟩

/-- `ConfigWriter::get_config` (flash.rs, lines 101-112): read the
`CONFIG_SIZE - 1` bytes after the magic of the last valid slot, keep the first
`NUM_BTS` of them, and validate them through `Matrix::from_bytes`. -/
def ConfigWriter.get_config (Z : Zones) (w : ConfigWriter) : Option KeyMatrix :=
  let lastAddr := CONFIG_ADD + w.lastValidIndex * CONFIG_SIZE
  match ConfigWriter.read w.mem (lastAddr + 1) (CONFIG_SIZE - 1) with
  | .error _ => none
  | .ok config => KeyMatrix.fromBytes Z (config.take NUM_BTS)

/-- `ConfigWriter::write_default` (flash.rs, lines 91-99), fault-free: erase
the page, write the factory entry at slot 0, set `last_valid_index = 0`. -/
def ConfigWriter.write_default (w : ConfigWriter) : Except FlashError ConfigWriter :=
  match ConfigWriter.write (erasePage w.mem) CONFIG_ADD (matrixToConfig KeyMatrix.new) with
  | .error e => .error e
  | .ok mem2 => .ok ⟨mem2, 0⟩

/-- The slot walk of `ConfigWriter::new` (flash.rs, lines 77-85): count the
consecutive magic-marked slots starting at index `idx`, stopping at the first
non-magic slot; `fuel` is the number of loop iterations left. -/
def countMagic (mem : Mem) : Nat → Nat → Nat
  | _, 0 => 0
  | idx, fuel + 1 =>
    if mem (CONFIG_ADD + idx * CONFIG_SIZE) = MAGIC then
      1 + countMagic mem (idx + 1) fuel
    else
      0

/-- `ConfigWriter::new` (flash.rs, lines 64-88): probe slot 0; if its first
byte is not magic, install the factory default, otherwise walk slots
`1 .. CONFIGS_IN_PAGE - 1` for the last consecutive magic slot. -/
def ConfigWriter.new (mem : Mem) : Except FlashError ConfigWriter :=
  if mem CONFIG_ADD ≠ MAGIC then
    ConfigWriter.write_default ⟨mem, 0⟩
  else
    .ok ⟨mem, countMagic mem 1 (CONFIGS_IN_PAGE - 1)⟩

/-- `Matrix::update_layout` (keykey/src/keyboard.rs, lines 314-326): a
`SetN` command overwrites one slot of the layout and never touches flash; a
`Save` command hands the current layout to the flash writer.  The pair is the
(matrix, writer) state after the call. -/
def KeyMatrix.update_layout (m : KeyMatrix) (command : AppCommand) (w : ConfigWriter) :
    Except FlashError (KeyMatrix × ConfigWriter) :=
  match command with
  | .set1 v => .ok ({ m with k0 := v }, w)
  | .set2 v => .ok ({ m with k1 := v }, w)
  | .set3 v => .ok ({ m with k2 := v }, w)
  | .save =>
    match ConfigWriter.write_config w m with
    | .error e => .error e
    | .ok w2 => .ok (m, w2)

/-! ### The HID class device (keykey/src/keyboard.rs, `Keykey`) -/

/-- The mutable state of `Keykey` relevant to the embedded handlers, plus the
bus-assigned addresses of its two interrupt-IN endpoints (the second one is
the never-written dummy endpoint). -/
structure KeykeyDev where
  expectInterruptInComplete : Bool
  report : List Nat
  epAddr : Nat
  dummyEpAddr : Nat
deriving DecidableEq

/-- The outcome of `self.endpoint_interrupt_in.write(data)`, an environment
input of `Keykey::write`: the usb-device stack returns a byte count, a
`WouldBlock`, or some other error. -/
inductive EpWriteResult where
  | ok (count : Nat)
  | wouldBlock
  | otherErr
deriving DecidableEq

/-- `Keykey::write` (keykey/src/keyboard.rs, lines 112-126).  The returned
triple is (the `Result<usize, ()>` of the call, the device state after the
call, whether the endpoint write was attempted at all).  With the flag set the
call returns `Ok(0)` at once; otherwise a payload of 8 bytes or more sets the
flag before the endpoint write, whose `WouldBlock` is flattened to `Ok(0)` and
whose other errors become `Err(())`. -/
def Keykey.write (st : KeykeyDev) (data : List Nat) (ep : EpWriteResult) :
    Except Unit Nat × KeykeyDev × Bool :=
  if st.expectInterruptInComplete then
    (.ok 0, st, false)
  else
    let st2 := if 8 ≤ data.length then { st with expectInterruptInComplete := true } else st
    match ep with
    | .ok count => (.ok count, st2, true)
    | .wouldBlock => (.ok 0, st2, true)
    | .otherErr => (.error (), st2, true)

/-- `Keykey::set_keyboard_report` (keykey/src/keyboard.rs, lines 128-135). -/
def Keykey.set_keyboard_report (st : KeykeyDev) (report : List Nat) :
    Bool × KeykeyDev :=
  if report = st.report then (false, st) else (true, { st with report := report })

/-- `Keykey::endpoint_in_complete` (keykey/src/keyboard.rs, lines 232-236):
clear the flag exactly when the completed endpoint is the interrupt-IN
endpoint. -/
def Keykey.endpoint_in_complete (st : KeykeyDev) (addr : Nat) : KeykeyDev :=
  if addr = st.epAddr then { st with expectInterruptInComplete := false } else st

/-- `Keykey::reset` (keykey/src/keyboard.rs, lines 166-168): a bus reset
clears the flag. -/
def Keykey.reset (st : KeykeyDev) : KeykeyDev :=
  { st with expectInterruptInComplete := false }

/-- The resolution of a control-IN transfer: fall through without touching it
(the device stack will stall), reject it, or accept it with a payload. -/
inductive XferInResult where
  | ignored
  | rejected
  | accepted (bytes : List Nat)
deriving DecidableEq

/-- `Keykey::get_report` (keykey/src/keyboard.rs, lines 137-160): the report
type is the big-endian high byte of `request.value`, the interface is
`request.index as u8`; the keyboard interface answers with the last known
report, the control interface with eight zero bytes; too-short requests are
rejected, and only the Input and Feature report types are accepted. -/
def Keykey.get_report (st : KeykeyDev) (reqValue reqIndex reqLength : Nat) :
    XferInResult :=
  let reportType := ReportType.fromByte (reqValue / 256)
  let interface := reqIndex % 256
  let response : Option (List Nat) :=
    if interface = KEY_INTERFACE then some st.report
    else if interface = CTRL_INTERFACE then some (List.replicate 8 0)
    else none
  match response with
  | none => .ignored
  | some resp =>
    if reqLength < resp.length then .rejected
    else
      match reportType with
      | .input => .accepted resp
      | .feature => .accepted resp
      | _ => .rejected

/-- `RequestType` (usb-device's `control::RequestType`). -/
inductive RequestType where
  | standard
  | class_
  | vendor
  | reservedType
deriving DecidableEq

/-- `Recipient` (usb-device's `control::Recipient`). -/
inductive Recipient where
  | device
  | interface
  | endpoint
  | other
deriving DecidableEq

/-- `Keykey::control_out` (keykey/src/keyboard.rs, lines 269-299).  The
command queue is the `heapless` SPSC queue of capacity 8; its elements are the
values `AppCommand::from_req_value(cmd, key)` that the source hands to
`enqueue`, which with host/src/packets.rs have type `Option<AppCommand>`.
Result: `some queue2` when the transfer is accepted (with the new queue
contents), `none` when the handler falls through and the transfer stalls.  The
transfer is accepted iff the request is Class/Interface for the control
interface with request code `SetReport`, the payload is exactly two bytes,
both bytes decode (`VendorCommand::try_from`, `KeyCode::try_from`), and the
queue has room. -/
def Keykey.control_out (Z : Zones) (requestType : RequestType) (recipient : Recipient)
    (index : Nat) (request : Nat) (data : List Nat) (queue : List (Option AppCommand)) :
    Option (List (Option AppCommand)) :=
  if requestType = RequestType.class_ ∧ recipient = Recipient.interface ∧
      index = CTRL_INTERFACE then
    match Request.new request with
    | some Request.setReport =>
      if data.length = 2 then
        match VendorCommand.tryFrom (data.getD 0 0), KeyCode.tryFrom Z (data.getD 1 0) with
        | some cmd, some key =>
          if queue.length < 8 then
            some (queue ++ [AppCommand.fromReqValue cmd key])
          else
            none
        | _, _ => none
      else none
    | _ => none
  else none

/-! ### The report descriptors (keykey/src/keyboard.rs, lines 30-70) -/

/-- `KEY_REPORT_DESCRIPTOR` (keykey/src/keyboard.rs, lines 30-54). -/
def KEY_REPORT_DESCRIPTOR : List Nat :=
  [0x05, 0x01,
   0x09, 0x06,
   0xA1, 0x01,
   0x05, 0x07,
   0x19, 0xE0,
   0x29, 0xE7,
   0x15, 0x00,
   0x25, 0x01,
   0x75, 0x01,
   0x95, 0x08,
   0x81, 0x02,
   0x95, 0x01,
   0x75, 0x08,
   0x81, 0x03,
   0x95, 0x06,
   0x75, 0x08,
   0x15, 0x00,
   0x26, 0xFB, 0x00,
   0x05, 0x07,
   0x19, 0x00,
   0x29, 0xFB,
   0x81, 0x00,
   0xC0]

/-- `CTRL_REPORT_DESCRIPTOR` (keykey/src/keyboard.rs, lines 59-70). -/
def CTRL_REPORT_DESCRIPTOR : List Nat :=
  [0x06, 0x00, 0xFF,
   0x09, 0x01,
   0xA1, 0x01,
   0x09, 0x01,
   0x15, 0x00,
   0x26, 0xFF, 0x00,
   0x75, 0x08,
   0x95, 0x02,
   0xB1, 0x02,
   0xC0]

/-! ### Concrete test fixtures

The concrete zone bounds and flash images used by the closed theorems below.
`Z0` is one admissible instantiation of the spec-modelled zone bounds (any
well-formed instantiation works for the universally quantified theorems; the
closed evaluations fix this one). -/

/-- A well-formed instantiation of the zone bounds: Z1 = [0x00, 0xA4],
Z2 = [0xB0, 0xFB]. -/
def Z0 : Zones := ⟨0x00, 0xA4, 0xB0, 0xFB⟩

/-- The layout `[Space, B, C]` (usage codes 0x2C, 0x05, 0x06) from spec
scenario S2. -/
def mSpace : KeyMatrix := ⟨0x2C, 0x05, 0x06⟩

/-- A flash image whose config page holds the factory entry
`[0x55, 0x04, 0x05, 0x06]` in slots 0 .. 254 and erased bytes (`0xFF`)
everywhere else — the page one successful store away from being full. -/
def mem254 : Mem := fun a =>
  if CONFIG_ADD ≤ a ∧ a < CONFIG_ADD + 255 * CONFIG_SIZE then
    match (a - CONFIG_ADD) % CONFIG_SIZE with
    | 0 => MAGIC
    | 1 => 0x04
    | 2 => 0x05
    | _ => 0x06
  else 0xFF

/-- A flash image whose config page holds the factory entry in all 256 slots —
a completely full page. -/
def mem255full : Mem := fun a =>
  if CONFIG_ADD ≤ a ∧ a < CONFIG_ADD + PAGE_SIZE then
    match (a - CONFIG_ADD) % CONFIG_SIZE with
    | 0 => MAGIC
    | 1 => 0x04
    | 2 => 0x05
    | _ => 0x06
  else 0xFF

/-- Projection: the `last_valid_index` of a successful writer result. -/
def cwLvi : Except FlashError ConfigWriter → Option Nat
  | .ok w => some w.lastValidIndex
  | .error _ => none

/-- Projection: the error of a failed writer result. -/
def storeErr : Except FlashError ConfigWriter → Option FlashError
  | .error e => some e
  | .ok _ => none

/-- Projection: the error of a failed low-level flash write. -/
def memWriteErr : Except FlashError Mem → Option FlashError
  | .error e => some e
  | .ok _ => none

/-- Boot followed by one store: `ConfigWriter::new` on the given flash image,
then `write_config` of the given layout. -/
def newThenStore (mem : Mem) (m : KeyMatrix) : Except FlashError ConfigWriter :=
  match ConfigWriter.new mem with
  | .ok w => ConfigWriter.write_config w m
  | .error e => .error e

/-- `store(m)` then `load()` on a writer.  A failing `write_config` leaves the
writer unchanged in the source (every error return precedes any mutation, see
`ConfigWriter.write_config`), so the subsequent load reads the old state. -/
def storeThenLoad (Z : Zones) (w : ConfigWriter) (m : KeyMatrix) : Option KeyMatrix :=
  match ConfigWriter.write_config w m with
  | .ok w2 => ConfigWriter.get_config Z w2
  | .error _ => ConfigWriter.get_config Z w

/-- Boot, store, load: `some` of the load result when boot succeeds. -/
def newThenStoreLoad (Z : Zones) (mem : Mem) (m : KeyMatrix) : Option (Option KeyMatrix) :=
  match ConfigWriter.new mem with
  | .ok w => some (storeThenLoad Z w m)
  | .error _ => none

/-- A debouncer snapshot that reports every button as having just transitioned
to unpressed. -/
def dbAllReleased : DebouncerSnapshot := fun _ => some BtnState.changedToUnpressed

/-- A debouncer snapshot that reports button 0 as just pressed and the other
buttons as unpressed. -/
def dbPress0 : DebouncerSnapshot := fun i =>
  if i = 0 then some BtnState.changedToPressed else some BtnState.unPressed

/-! ## Theorems for the claims -/

/-- C9 — counterexample.  The claim states the keyboard report descriptor is
exactly 63 bytes long and the control report descriptor exactly 18 bytes long;
the descriptors emitted by keykey/src/keyboard.rs are 46 and 21 bytes long. -/
theorem report_descriptor_lengths_counterexample :
    KEY_REPORT_DESCRIPTOR.length = 46 ∧ CTRL_REPORT_DESCRIPTOR.length = 21 ∧
    KEY_REPORT_DESCRIPTOR.length ≠ 63 ∧ CTRL_REPORT_DESCRIPTOR.length ≠ 18 := by
  decide

/-- C9 — amended.  The keyboard report descriptor is exactly 46 bytes and the
control report descriptor exactly 21 bytes, with the layout the spec
describes: generic-desktop page, keyboard usage, a 1-bit × 8 modifier input,
a 1-byte constant pad, a 6-byte usage-code array with logical and usage
maximum 0xFB on the keyboard/keypad page; vendor page 0xFF00, usage 1, and an
8-bit × 2 Feature field of logical range 0..255. -/
theorem report_descriptor_layout :
    KEY_REPORT_DESCRIPTOR.length = 46 ∧
    KEY_REPORT_DESCRIPTOR.take 6 = [0x05, 0x01, 0x09, 0x06, 0xA1, 0x01] ∧
    (KEY_REPORT_DESCRIPTOR.drop 6).take 6 = [0x05, 0x07, 0x19, 0xE0, 0x29, 0xE7] ∧
    (KEY_REPORT_DESCRIPTOR.drop 16).take 6 = [0x75, 0x01, 0x95, 0x08, 0x81, 0x02] ∧
    (KEY_REPORT_DESCRIPTOR.drop 22).take 6 = [0x95, 0x01, 0x75, 0x08, 0x81, 0x03] ∧
    (KEY_REPORT_DESCRIPTOR.drop 28).take 9 =
      [0x95, 0x06, 0x75, 0x08, 0x15, 0x00, 0x26, 0xFB, 0x00] ∧
    (KEY_REPORT_DESCRIPTOR.drop 37).take 8 = [0x05, 0x07, 0x19, 0x00, 0x29, 0xFB, 0x81, 0x00] ∧
    KEY_REPORT_DESCRIPTOR.getLast? = some 0xC0 ∧
    CTRL_REPORT_DESCRIPTOR.length = 21 ∧
    CTRL_REPORT_DESCRIPTOR.take 5 = [0x06, 0x00, 0xFF, 0x09, 0x01] ∧
    (CTRL_REPORT_DESCRIPTOR.drop 9).take 11 =
      [0x15, 0x00, 0x26, 0xFF, 0x00, 0x75, 0x08, 0x95, 0x02, 0xB1, 0x02] ∧
    CTRL_REPORT_DESCRIPTOR.getLast? = some 0xC0 := by
  decide

/-- C6 — the claim is the code's own intent, and the code misses it by one:
`valid_range` demands `start + length < FLASH_END` (strict), so the even,
fully-contained two-byte write ending exactly at `FLASH_END` — the tail of the
last config slot — is refused with `WrongRange`.  The conjuncts: the range
check rejects it; it is contained in `[CONFIG_ADD, FLASH_END)` and of even
length, so the claim says it must be accepted; the low-level write indeed
fails with `WrongRange`. -/
theorem flash_write_range_check_strict :
    ConfigWriter.valid_range (FLASH_END - 2) 2 = false ∧
    CONFIG_ADD ≤ FLASH_END - 2 ∧ (FLASH_END - 2) + 2 ≤ FLASH_END ∧
    Nat.land 2 1 = 0 ∧
    memWriteErr (ConfigWriter.write (fun _ => 0xFF) (FLASH_END - 2) [MAGIC, 0x04]) =
      some FlashError.wrongRange := by
  decide

/-- C5: the input-endpoint backpressure state machine.  (1) With
`awaiting_complete` set, `write` returns `Ok(0)`, changes nothing and never
touches the endpoint; (2) with the flag clear, a write of at least 8 bytes
sets the flag whatever the endpoint outcome; (3) `endpoint_in_complete`
leaves the flag equal to its old value exactly on foreign addresses and
clears it on the interrupt-IN endpoint's address; (4) a bus reset clears the
flag. -/
theorem keykey_write_backpressure_machine :
    (∀ (st : KeykeyDev) (data : List Nat) (ep : EpWriteResult),
        st.expectInterruptInComplete = true →
        Keykey.write st data ep = (Except.ok 0, st, false)) ∧
    (∀ (st : KeykeyDev) (data : List Nat) (ep : EpWriteResult),
        st.expectInterruptInComplete = false → 8 ≤ data.length →
        (Keykey.write st data ep).2.1.expectInterruptInComplete = true) ∧
    (∀ (st : KeykeyDev) (addr : Nat),
        (Keykey.endpoint_in_complete st addr).expectInterruptInComplete =
          (decide (addr ≠ st.epAddr) && st.expectInterruptInComplete)) ∧
    (∀ st : KeykeyDev, (Keykey.reset st).expectInterruptInComplete = false) := by
  refine ⟨?_, ?_, ?_, ?_⟩
  · intro st data ep h
    simp [Keykey.write, h]
  · intro st data ep h h8
    cases ep <;> simp [Keykey.write, h, h8]
  · intro st addr
    by_cases haddr : addr = st.epAddr <;>
      simp [Keykey.endpoint_in_complete, haddr]
  · intro st
    rfl

/-- C5 — witness: concrete evaluations of all four parts of the machine. -/
theorem keykey_write_backpressure_machine_witness :
    Keykey.write ⟨true, KbHidReport.new, 0x81, 0x82⟩ KbHidReport.new .wouldBlock =
      (Except.ok 0, ⟨true, KbHidReport.new, 0x81, 0x82⟩, false) ∧
    (Keykey.write ⟨false, KbHidReport.new, 0x81, 0x82⟩ KbHidReport.new
        .wouldBlock).2.1.expectInterruptInComplete = true ∧
    (Keykey.endpoint_in_complete ⟨true, KbHidReport.new, 0x81, 0x82⟩
        0x81).expectInterruptInComplete = (decide ((0x81 : Nat) ≠ 0x81) && true) ∧
    (Keykey.reset ⟨true, KbHidReport.new, 0x81, 0x82⟩).expectInterruptInComplete = false :=
  ⟨keykey_write_backpressure_machine.1 _ _ _ rfl,
   keykey_write_backpressure_machine.2.1 _ _ _ rfl (by decide),
   keykey_write_backpressure_machine.2.2.1 _ _,
   keykey_write_backpressure_machine.2.2.2 _⟩

/-- C10: with the flag clear and a payload of at least 8 bytes, a `WouldBlock`
from the endpoint still leaves the call returning `Ok(0)` with the flag set,
because the flag is set before the endpoint write is attempted. -/
theorem keykey_write_wouldblock_flag_set (st : KeykeyDev) (data : List Nat)
    (h : st.expectInterruptInComplete = false) (h8 : 8 ≤ data.length) :
    Keykey.write st data .wouldBlock =
      (Except.ok 0, { st with expectInterruptInComplete := true }, true) := by
  simp [Keykey.write, h, h8]

/-- C10 — witness: the concrete 8-byte write against a blocking endpoint. -/
theorem keykey_write_wouldblock_flag_set_witness :
    (⟨false, KbHidReport.new, 0x81, 0x82⟩ : KeykeyDev).expectInterruptInComplete = false ∧
    8 ≤ KbHidReport.new.length ∧
    Keykey.write ⟨false, KbHidReport.new, 0x81, 0x82⟩ KbHidReport.new .wouldBlock =
      (Except.ok 0, ⟨true, KbHidReport.new, 0x81, 0x82⟩, true) :=
  ⟨rfl, by decide,
   keykey_write_wouldblock_flag_set ⟨false, KbHidReport.new, 0x81, 0x82⟩
     KbHidReport.new rfl (by decide)⟩

/-- C7: behaviour of the class-specific GetReport handler on the two
interfaces.  With the stored report 8 bytes long (it always is — `KbHidReport`
is the 8-byte boot report): (1) on the keyboard interface a long-enough
Input/Feature request is answered with the last known report; (2) on the
control interface with eight zero bytes; (3) on either interface a request
shorter than the 8-byte response — in particular `length = 7` — is rejected;
(4) on either interface the Output and Reserved report types are rejected. -/
theorem keykey_get_report_behaviour (st : KeykeyDev) (reqValue reqIndex reqLength : Nat)
    (hrep : st.report.length = 8) :
    (reqIndex % 256 = KEY_INTERFACE → 8 ≤ reqLength →
      (ReportType.fromByte (reqValue / 256) = ReportType.input ∨
        ReportType.fromByte (reqValue / 256) = ReportType.feature) →
      Keykey.get_report st reqValue reqIndex reqLength = .accepted st.report) ∧
    (reqIndex % 256 = CTRL_INTERFACE → 8 ≤ reqLength →
      (ReportType.fromByte (reqValue / 256) = ReportType.input ∨
        ReportType.fromByte (reqValue / 256) = ReportType.feature) →
      Keykey.get_report st reqValue reqIndex reqLength = .accepted (List.replicate 8 0)) ∧
    ((reqIndex % 256 = KEY_INTERFACE ∨ reqIndex % 256 = CTRL_INTERFACE) → reqLength < 8 →
      Keykey.get_report st reqValue reqIndex reqLength = .rejected) ∧
    ((reqIndex % 256 = KEY_INTERFACE ∨ reqIndex % 256 = CTRL_INTERFACE) →
      (ReportType.fromByte (reqValue / 256) = ReportType.output ∨
        ∃ v, ReportType.fromByte (reqValue / 256) = ReportType.reserved v) →
      Keykey.get_report st reqValue reqIndex reqLength = .rejected) := by
  refine ⟨?_, ?_, ?_, ?_⟩
  · intro hif hlen hty
    rcases hty with hty | hty <;>
      simp [Keykey.get_report, hif, hrep, Nat.not_lt.mpr hlen, hty]
  · intro hif hlen hty
    have h01 : KEY_INTERFACE ≠ CTRL_INTERFACE := by decide
    rcases hty with hty | hty <;>
      simp [Keykey.get_report, hif, Nat.not_lt.mpr hlen, hty, h01, CTRL_INTERFACE,
        KEY_INTERFACE]
  · intro hif hlen
    have h8 : st.report.length = 8 := hrep
    rcases hif with hif | hif <;>
      simp [Keykey.get_report, hif, h8, hlen, CTRL_INTERFACE, KEY_INTERFACE]
  · intro hif hty
    rcases hif with hif | hif <;> rcases hty with hty | ⟨v, hty⟩ <;>
      by_cases hlen : reqLength < 8 <;>
        simp [Keykey.get_report, hif, hrep, hty, hlen, CTRL_INTERFACE, KEY_INTERFACE]

/-- C7 — witness: on the concrete device state holding the all-zero report,
a Feature GetReport of length 8 on the keyboard interface is answered with
the stored report, and the length-7 request is rejected. -/
theorem keykey_get_report_behaviour_witness :
    (⟨false, KbHidReport.new, 0x81, 0x82⟩ : KeykeyDev).report.length = 8 ∧
    Keykey.get_report ⟨false, KbHidReport.new, 0x81, 0x82⟩ 0x0300 0 8 =
      .accepted KbHidReport.new ∧
    Keykey.get_report ⟨false, KbHidReport.new, 0x81, 0x82⟩ 0x0300 0 7 = .rejected :=
  ⟨by decide,
   (keykey_get_report_behaviour ⟨false, KbHidReport.new, 0x81, 0x82⟩ 0x0300 0 8
       (by decide)).1 (by decide) (by decide) (Or.inr (by decide)),
   (keykey_get_report_behaviour ⟨false, KbHidReport.new, 0x81, 0x82⟩ 0x0300 0 7
       (by decide)).2.2.1 (Or.inl (by decide)) (by decide)⟩

/-- C8: byte-level serialization of the layout.  For any zone bounds:
(1) a layout of valid usage codes survives the `to_bytes`/`from_bytes` round
trip; (2) any byte array containing an invalid byte is rejected; (3) under
the spec's well-formedness of the zones, the gap byte `Z1_hi + 1` in
particular makes `from_bytes` return `none`. -/
theorem matrix_serialization_roundtrip (Z : Zones) (hZ : Z.WellFormed) :
    (∀ m : KeyMatrix,
        invalidCode Z m.k0 = false → invalidCode Z m.k1 = false →
        invalidCode Z m.k2 = false →
        KeyMatrix.fromBytes Z m.toBytes = some m) ∧
    (∀ bytes : List Nat, bytes.any (invalidCode Z) = true →
        KeyMatrix.fromBytes Z bytes = none) ∧
    (∀ b1 b2 : Nat, KeyMatrix.fromBytes Z [Z.z1Last + 1, b1, b2] = none) := by
  refine ⟨?_, ?_, ?_⟩
  · intro m h0 h1 h2
    simp [KeyMatrix.fromBytes, KeyMatrix.toBytes, h0, h1, h2]
  · intro bytes h
    simp [KeyMatrix.fromBytes, h]
  · intro b1 b2
    have hmid : invalidCode Z (Z.z1Last + 1) = true := by
      have hgap : Z.z1Last + 1 < Z.z2First := hZ.2.1
      simp [invalidCode, hgap, Nat.lt_succ_self]
    simp [KeyMatrix.fromBytes, hmid]

/-- C8 — witness: with the zone instantiation `Z0`, the factory layout
`[A, B, C]` round-trips. -/
theorem matrix_serialization_roundtrip_witness :
    Z0.WellFormed ∧
    invalidCode Z0 KeyMatrix.new.k0 = false ∧
    KeyMatrix.fromBytes Z0 KeyMatrix.new.toBytes = some KeyMatrix.new :=
  ⟨by decide, by decide,
   (matrix_serialization_roundtrip Z0 (by decide)).1 KeyMatrix.new
     (by decide) (by decide) (by decide)⟩

/-- C2 — counterexample.  Two concrete transfers refute the claim as stated
(zones instantiated with the well-formed `Z0`): the payload `[4, 0xA5]` — a
Save whose value byte is the undecodable gap byte `Z1_hi + 1` — is *not*
accepted although the claim says the value byte of Save is ignored; and the
payload `[70, 0x04]` — `GetOSFeature`, a command outside `{1,2,3,4}` — *is*
accepted (enqueuing the `None` that `AppCommand::from_req_value` produces). -/
theorem control_out_claim_counterexample :
    Z0.WellFormed ∧ Z0.z1Last + 1 = 0xA5 ∧
    Keykey.control_out Z0 .class_ .interface 1 9 [4, 0xA5] [] = none ∧
    Keykey.control_out Z0 .class_ .interface 1 9 [70, 0x04] [] = some [none] := by
  decide

/-- C2 — amended.  A 2-byte SetReport on the control interface (queue not
full) is accepted iff the command byte decodes as a `VendorCommand` — i.e.
`cmd ∈ {1, 2, 3, 4, 70}` — *and* the value byte decodes as a usage code, the
value byte being checked for every command, Save included; an accepted
transfer with `cmd ∈ {1,2,3}` enqueues `SetSlot(cmd-1, value)`, with `cmd = 4`
enqueues Save, and with `cmd = 70` enqueues no application command (the
`None` result of `from_req_value`). -/
theorem control_out_accept_iff (Z : Zones) (c v : Nat) (q : List (Option AppCommand))
    (hq : q.length < 8) :
    ((Keykey.control_out Z .class_ .interface CTRL_INTERFACE 9 [c, v] q).isSome ↔
        ((c = 1 ∨ c = 2 ∨ c = 3 ∨ c = 4 ∨ c = 70) ∧ invalidCode Z v = false)) ∧
    (invalidCode Z v = false →
      (c = 1 → Keykey.control_out Z .class_ .interface CTRL_INTERFACE 9 [c, v] q =
          some (q ++ [some (AppCommand.set1 v)])) ∧
      (c = 2 → Keykey.control_out Z .class_ .interface CTRL_INTERFACE 9 [c, v] q =
          some (q ++ [some (AppCommand.set2 v)])) ∧
      (c = 3 → Keykey.control_out Z .class_ .interface CTRL_INTERFACE 9 [c, v] q =
          some (q ++ [some (AppCommand.set3 v)])) ∧
      (c = 4 → Keykey.control_out Z .class_ .interface CTRL_INTERFACE 9 [c, v] q =
          some (q ++ [some AppCommand.save])) ∧
      (c = 70 → Keykey.control_out Z .class_ .interface CTRL_INTERFACE 9 [c, v] q =
          some (q ++ [none]))) := by
  constructor
  · by_cases h1 : c = 1
    · subst h1
      by_cases hv : invalidCode Z v <;>
        simp [Keykey.control_out, Request.new, VendorCommand.tryFrom, KeyCode.tryFrom,
          AppCommand.fromReqValue, hv, hq]
    · by_cases h2 : c = 2
      · subst h2
        by_cases hv : invalidCode Z v <;>
          simp [Keykey.control_out, Request.new, VendorCommand.tryFrom, KeyCode.tryFrom,
            AppCommand.fromReqValue, hv, hq]
      · by_cases h3 : c = 3
        · subst h3
          by_cases hv : invalidCode Z v <;>
            simp [Keykey.control_out, Request.new, VendorCommand.tryFrom, KeyCode.tryFrom,
              AppCommand.fromReqValue, hv, hq]
        · by_cases h4 : c = 4
          · subst h4
            by_cases hv : invalidCode Z v <;>
              simp [Keykey.control_out, Request.new, VendorCommand.tryFrom, KeyCode.tryFrom,
                AppCommand.fromReqValue, hv, hq]
          · by_cases h70 : c = 70
            · subst h70
              by_cases hv : invalidCode Z v <;>
                simp [Keykey.control_out, Request.new, VendorCommand.tryFrom,
                  KeyCode.tryFrom, AppCommand.fromReqValue, hv, hq]
            · have hnone : VendorCommand.tryFrom c = none := by
                simp [VendorCommand.tryFrom, h1, h2, h3, h4, h70]
              simp [Keykey.control_out, Request.new, hnone, h1, h2, h3, h4, h70]
  · intro hv
    refine ⟨?_, ?_, ?_, ?_, ?_⟩ <;> intro hc <;> subst hc <;>
      simp [Keykey.control_out, Request.new, VendorCommand.tryFrom, KeyCode.tryFrom,
        AppCommand.fromReqValue, hv, hq]

/-- C2 — witness: an empty queue accepts `[1, 0x2C]` (remap slot 0 to Space),
enqueuing `SetSlot(0, Space)`. -/
theorem control_out_accept_iff_witness :
    ([] : List (Option AppCommand)).length < 8 ∧
    ((Keykey.control_out Z0 .class_ .interface CTRL_INTERFACE 9 [1, 0x2C] []).isSome ↔
        (((1 : Nat) = 1 ∨ (1 : Nat) = 2 ∨ (1 : Nat) = 3 ∨ (1 : Nat) = 4 ∨ (1 : Nat) = 70) ∧
          invalidCode Z0 0x2C = false)) ∧
    (invalidCode Z0 0x2C = false →
      Keykey.control_out Z0 .class_ .interface CTRL_INTERFACE 9 [1, 0x2C] [] =
        some [some (AppCommand.set1 0x2C)]) :=
  ⟨by decide, (control_out_accept_iff Z0 1 0x2C [] (by decide)).1,
   fun hv => ((control_out_accept_iff Z0 1 0x2C [] (by decide)).2 hv).1 rfl⟩

/-- `setFirstZero` keeps the length of the key-byte list. -/
lemma length_setFirstZero (l : List Nat) (kc : Nat) :
    (setFirstZero l kc).length = l.length := by
  induction l with
  | nil => rfl
  | cons x xs ih =>
    unfold setFirstZero
    by_cases hx : x = 0 <;> simp [hx, ih]

/-- `setFirstZero` consumes at most one zero of the key-byte list. -/
lemma count_zero_setFirstZero (l : List Nat) (kc : Nat) :
    l.count 0 ≤ (setFirstZero l kc).count 0 + 1 := by
  induction l with
  | nil => simp [setFirstZero]
  | cons x xs ih =>
    unfold setFirstZero
    by_cases hx : x = 0
    · subst hx
      simp only [if_pos rfl, List.count_cons]
      by_cases hkc : (0 : Nat) = kc
      · simp [hkc]
        omega
      · simp [hkc]
    · simp [hx, List.count_cons, ih]

/-- Membership in the key bytes after `setFirstZero`: as long as a free byte
remains, a nonzero code is present afterwards iff it was just inserted or was
already present. -/
lemma mem_setFirstZero (l : List Nat) (kc u : Nat) (hu : u ≠ 0) (h0 : (0 : Nat) ∈ l) :
    u ∈ setFirstZero l kc ↔ u = kc ∨ u ∈ l := by
  induction l with
  | nil => cases h0
  | cons x xs ih =>
    unfold setFirstZero
    by_cases hx : x = 0
    · subst hx
      simp [List.mem_cons, hu]
    · have h0x : (0 : Nat) ∈ xs := by
        rcases List.mem_cons.mp h0 with h | h
        · exact absurd h.symm hx
        · exact h
      simp only [hx, if_false, List.mem_cons, ih h0x]
      tauto

/-- Dropping the modifier and reserved bytes commutes with
`KbHidReport.pressed`. -/
lemma drop_two_pressed (r : List Nat) (kc : Nat) (h : 2 ≤ r.length) :
    (KbHidReport.pressed r kc).drop 2 = setFirstZero (r.drop 2) kc := by
  unfold KbHidReport.pressed
  have ht : (r.take 2).length = 2 := by
    simp [List.length_take]
    omega
  calc (r.take 2 ++ setFirstZero (r.drop 2) kc).drop 2
      = (r.take 2 ++ setFirstZero (r.drop 2) kc).drop (r.take 2).length := by rw [ht]
    _ = setFirstZero (r.drop 2) kc := List.drop_left _ _

/-- `KbHidReport.pressed` keeps the report length. -/
lemma length_pressed (r : List Nat) (kc : Nat) (h : 2 ≤ r.length) :
    (KbHidReport.pressed r kc).length = r.length := by
  unfold KbHidReport.pressed
  simp [length_setFirstZero, List.length_take, List.length_drop]
  omega

/-- One `Matrix::update` loop iteration keeps the report length. -/
lemma length_updateStep (db : DebouncerSnapshot) (r : List Nat) (i k : Nat)
    (h : 2 ≤ r.length) :
    (updateStep db r (i, k)).length = r.length := by
  cases hdb : db i with
  | none => simp [updateStep, hdb]
  | some v =>
    by_cases hv : v = BtnState.unPressed <;>
      simp [updateStep, hdb, hv, length_pressed _ _ h]

/-- One `Matrix::update` loop iteration consumes at most one free key byte. -/
lemma count_zero_updateStep (db : DebouncerSnapshot) (r : List Nat) (i k : Nat)
    (h : 2 ≤ r.length) :
    (r.drop 2).count 0 ≤ ((updateStep db r (i, k)).drop 2).count 0 + 1 := by
  cases hdb : db i with
  | none => simp [updateStep, hdb]
  | some v =>
    by_cases hv : v = BtnState.unPressed
    · simp [updateStep, hdb, hv]
    · simp only [updateStep, hdb, hv, ne_eq, not_false_iff, if_true]
      rw [drop_two_pressed _ _ h]
      exact count_zero_setFirstZero _ _

/-- Membership of a nonzero code in the key bytes after one `Matrix::update`
loop iteration: present afterwards iff the iteration's button was reported in
a non-`UnPressed` state and carries the code, or it was already present. -/
lemma mem_updateStep (db : DebouncerSnapshot) (r : List Nat) (i k u : Nat)
    (hu : u ≠ 0) (h : 2 ≤ r.length) (h0 : (0 : Nat) ∈ r.drop 2) :
    u ∈ (updateStep db r (i, k)).drop 2 ↔
      ((∃ s, db i = some s ∧ s ≠ BtnState.unPressed) ∧ u = k) ∨ u ∈ r.drop 2 := by
  cases hdb : db i with
  | none => simp [updateStep, hdb]
  | some v =>
    by_cases hv : v = BtnState.unPressed
    · subst hv
      simp [updateStep, hdb]
    · simp only [updateStep, hdb, hv, ne_eq, not_false_iff, if_true]
      rw [drop_two_pressed _ _ h, mem_setFirstZero _ _ _ hu h0]
      have hex : (∃ s, (some v : Option BtnState) = some s ∧ s ≠ BtnState.unPressed) :=
        ⟨v, rfl, hv⟩
      simp [hex]
      tauto

/-- C1 — counterexample.  With every button reported as
`ChangedToUnpressed` — a state that is neither just-transitioned-to-pressed
nor held/repeat — `Matrix::update` still sets all three mapped usage codes
into the pressed-key bytes, because the source presses on any state different
from `UnPressed`.  The claim says such a button contributes no key. -/
theorem matrix_update_changed_to_unpressed_presses :
    KeyMatrix.new.update dbAllReleased = [0, 0, 0x04, 0x05, 0x06, 0, 0, 0] ∧
    (0x04 : Nat) ∈ (KeyMatrix.new.update dbAllReleased).drop 2 ∧
    dbAllReleased 0 = some BtnState.changedToUnpressed := by
  decide

/-- C1 — amended.  For every layout, every debouncer snapshot and every
nonzero usage code `u`: the report composed by `Matrix::update` carries `u` in
its pressed-key bytes (positions ≥ 2) iff some slot mapped to `u` got a
successful state answer different from `UnPressed` — i.e. just-pressed,
held/repeat *or* just-released; a slot whose state query errors contributes
nothing. -/
theorem matrix_update_pressed_iff (m : KeyMatrix) (db : DebouncerSnapshot) (u : Nat)
    (hu : u ≠ 0) :
    u ∈ (m.update db).drop 2 ↔
      ((∃ s, db 0 = some s ∧ s ≠ BtnState.unPressed) ∧ u = m.k0) ∨
      ((∃ s, db 1 = some s ∧ s ≠ BtnState.unPressed) ∧ u = m.k1) ∨
      ((∃ s, db 2 = some s ∧ s ≠ BtnState.unPressed) ∧ u = m.k2) := by
  have hup : m.update db =
      updateStep db (updateStep db (updateStep db KbHidReport.new (0, m.k0)) (1, m.k1))
        (2, m.k2) := rfl
  set r0 := KbHidReport.new with hr0
  set r1 := updateStep db r0 (0, m.k0) with hr1
  set r2 := updateStep db r1 (1, m.k1) with hr2
  have l0 : 2 ≤ r0.length := by rw [hr0]; decide
  have l1 : 2 ≤ r1.length := by rw [hr1, length_updateStep _ _ _ _ l0]; exact l0
  have l2 : 2 ≤ r2.length := by rw [hr2, length_updateStep _ _ _ _ l1]; exact l1
  have c0 : (r0.drop 2).count 0 = 6 := by rw [hr0]; decide
  have c1 : 5 ≤ (r1.drop 2).count 0 := by
    have := count_zero_updateStep db r0 0 m.k0 l0
    rw [← hr1] at this
    omega
  have c2 : 4 ≤ (r2.drop 2).count 0 := by
    have := count_zero_updateStep db r1 1 m.k1 l1
    rw [← hr2] at this
    omega
  have z0 : (0 : Nat) ∈ r0.drop 2 := by rw [hr0]; decide
  have z1 : (0 : Nat) ∈ r1.drop 2 := List.count_pos_iff.mp (by omega)
  have z2 : (0 : Nat) ∈ r2.drop 2 := List.count_pos_iff.mp (by omega)
  have hnot : ¬ u ∈ r0.drop 2 := by
    have hd : r0.drop 2 = List.replicate 6 0 := by rw [hr0]; rfl
    rw [hd]
    simp [List.mem_replicate, hu]
  rw [hup, mem_updateStep db r2 2 m.k2 u hu l2 z2, mem_updateStep db r1 1 m.k1 u hu l1 z1,
    mem_updateStep db r0 0 m.k0 u hu l0 z0]
  generalize (∃ s, db 0 = some s ∧ s ≠ BtnState.unPressed) = P0
  generalize (∃ s, db 1 = some s ∧ s ≠ BtnState.unPressed) = P1
  generalize (∃ s, db 2 = some s ∧ s ≠ BtnState.unPressed) = P2
  tauto

/-- C1 — witness: button 0 just pressed, buttons 1 and 2 unpressed, on the
factory layout: usage code `A = 0x04` is in the pressed bytes iff one of the
three slots carrying it is active. -/
theorem matrix_update_pressed_iff_witness :
    (0x04 : Nat) ≠ 0 ∧
    ((0x04 : Nat) ∈ (KeyMatrix.new.update dbPress0).drop 2 ↔
      ((∃ s, dbPress0 0 = some s ∧ s ≠ BtnState.unPressed) ∧ (0x04 : Nat) = KeyMatrix.new.k0) ∨
      ((∃ s, dbPress0 1 = some s ∧ s ≠ BtnState.unPressed) ∧ (0x04 : Nat) = KeyMatrix.new.k1) ∨
      ((∃ s, dbPress0 2 = some s ∧ s ≠ BtnState.unPressed) ∧ (0x04 : Nat) = KeyMatrix.new.k2)) :=
  ⟨by decide, matrix_update_pressed_iff KeyMatrix.new dbPress0 0x04 (by decide)⟩

set_option maxRecDepth 8000 in
/-- C3 — the round-trip claim is the code's intent and the code breaks it at
`last_valid_index = 254`: booting on `mem254` (slots 0..254 valid, the rest
erased — the state 254 consecutive successful stores produce) yields index
254; storing the valid mapping `[Space, B, C]` then fails with `WrongRange`
(the write to the last slot ends exactly at `FLASH_END`, which the strict
range check refuses), so the following load still returns the old factory
mapping instead of the stored one. -/
theorem flash_roundtrip_fails_at_index_254 :
    cwLvi (ConfigWriter.new mem254) = some 254 ∧
    storeErr (newThenStore mem254 mSpace) = some FlashError.wrongRange ∧
    newThenStoreLoad Z0 mem254 mSpace = some (some KeyMatrix.new) ∧
    mSpace ≠ KeyMatrix.new ∧
    invalidCode Z0 mSpace.k0 = false ∧ invalidCode Z0 mSpace.k1 = false ∧
    invalidCode Z0 mSpace.k2 = false := by
  decide

set_option maxRecDepth 8000 in
/-- C4 — the wear-leveling boundary claim is the code's intent (the module doc
of flash.rs promises erase-and-restart when the page gets full) and the code
breaks it one slot early: `CONFIGS_IN_PAGE = K = 256`, but the store that
should fill the last slot (requested at `last_valid_index = 254`) fails with
`WrongRange`, so the page can never be filled by stores and the erase-and-wrap
step can never be triggered through them.  The wrap branch itself is sound:
from a completely full page (index 255, reachable through the boot-time slot
walk), one store erases and lands in slot 0 with `last_valid_index = 0`. -/
theorem flash_page_wrap_unreachable :
    CONFIGS_IN_PAGE = 256 ∧
    cwLvi (ConfigWriter.new mem254) = some 254 ∧
    storeErr (newThenStore mem254 KeyMatrix.new) = some FlashError.wrongRange ∧
    cwLvi (ConfigWriter.new mem255full) = some 255 ∧
    cwLvi (newThenStore mem255full KeyMatrix.new) = some 0 := by
  decide
